import Mathlib

/-!
Shallow embedding of `src/cura/BackendPlugin.py` (class `BackendPlugin`,
the engine-process supervisor) and proofs about its lifecycle state
machine: command validation, `start()` with OS-failure classification,
run-state tracking, and `stop()`.

The OS process primitives (`subprocess.Popen`, `Popen.terminate`,
`Popen.wait`) are external to the repository; they are modelled as
oracles following the interface in spec section 6: the spawn primitive
returns a process handle or raises one of the classifiable OS errors,
the terminate primitive succeeds or raises a permission error.  Per
CPython `Popen` semantics, calling `terminate()` on a process that has
already been reaped by `wait()` polls, sees the recorded return code and
sends no signal (so it cannot raise), and `wait()` then returns the
cached return code.
-/

namespace BackendPlugin

/-- Message severity, mirroring `UM.Message.MessageType`; this core only
ever uses `error`. -/
inductive MessageType
| neutral
| information
| warning
| error
deriving DecidableEq

/-- One `Logger` line.  `level` is the letter the source passes
(`"i"` for `Logger.info`, `"e"` for errors, `"d"` for debug/diagnostic);
`trace` is true exactly for `Logger.logException`, which records a full
exception trace. -/
structure LogEntry where
  level : String
  trace : Bool
  text : String
deriving DecidableEq

/-- One user-facing message, as built by `BackendPlugin._showMessage`:
`Message(message, title = "EnginePlugin", message_type)`. -/
structure Notification where
  text : String
  title : String
  messageType : MessageType
deriving DecidableEq

/-- An owned OS process handle (a `subprocess.Popen` object): its OS
identity and the return code cached by `wait()` once the process has
been reaped (`Popen.returncode`, `None` while unreaped). -/
structure Proc where
  handle : Nat
  returncode : Option Int
deriving DecidableEq

/-- The supervisor state: the fields `BackendPlugin.__init__` sets, plus
`plugin_id`, the identifier the plugin registry assigns (inherited from
`PluginObject`, used only in log and message text). -/
structure State where
  plugin_id : String
  port : Int
  plugin_address : String
  plugin_command : Option (List String)
  process : Option Proc
  is_running : Bool
  supported_slots : List Int
deriving DecidableEq

/-- The state `BackendPlugin.__init__` establishes: port 0, loopback
address, no command, no process, not running, no slots. -/
def initState (pid : String) : State :=
  { plugin_id := pid
    port := 0
    plugin_address := "127.0.0.1"
    plugin_command := none
    process := none
    is_running := false
    supported_slots := [] }

/-- Getter `BackendPlugin.getSupportedSlots`. -/
def getSupportedSlots (s : State) : List Int :=
  s.supported_slots

/-- Getter `BackendPlugin.isRunning`. -/
def isRunning (s : State) : Bool :=
  s.is_running

/-- Setter `BackendPlugin.setPort`: overwrites the stored port
unconditionally (the source has no guard on the running state). -/
def setPort (p : Int) (s : State) : State :=
  { s with port := p }

/-- Getter `BackendPlugin.getPort`. -/
def getPort (s : State) : Int :=
  s.port

/-- Getter `BackendPlugin.getAddress`. -/
def getAddress (s : State) : String :=
  s.plugin_address

/-- Embedding of `BackendPlugin._validatePluginCommand`.  Python:
`if not self._plugin_command or "--port" in self._plugin_command:
return self._plugin_command or []` — an absent (`None`) and an empty
command are both falsy, so both short-circuit to `[]`; a command that
already contains the token `"--port"` is returned unchanged; otherwise
`["--address", address, "--port", str(port)]` is appended. -/
def _validatePluginCommand (s : State) : List String :=
  match s.plugin_command with
  | none => []
  | some cmd =>
    if cmd = [] ∨ "--port" ∈ cmd then
      cmd
    else
      cmd ++ ["--address", getAddress s, "--port", toString s.port]

/-- Python repr of a list of strings, as interpolated into the
`Logger.info` f-string in `start()`. -/
def pyListRepr (xs : List String) : String :=
  "[" ++ String.intercalate ", " (xs.map fun x => "'" ++ x ++ "'") ++ "]"

/-- Classification of the OS errors the spawn primitive can raise,
one per `except` clause of `start()`: `PermissionError`,
`FileNotFoundError`, `BlockingIOError`, and any other `OSError`. -/
inductive OSErrorKind
| permissionError
| fileNotFoundError
| blockingIOError
| otherOSError
deriving DecidableEq

/-- Outcome of one call to the OS spawn primitive (`subprocess.Popen`):
a fresh process handle, or a raised OS error (spec section 6: the
primitive returns a process handle or a classifiable OS error). -/
inductive SpawnRes
| ok (handle : Nat)
| raise (e : OSErrorKind)
deriving DecidableEq

/-- Everything one call to `start()` produces: the boolean return value,
the supervisor state after the call, the `Logger` lines and the
notifications shown, in order. -/
structure StartResult where
  ret : Bool
  state : State
  logs : List LogEntry
  messages : List Notification
deriving DecidableEq

/-- The `Logger.info` line at the top of `start()`. -/
def startInfoLog (s : State) : LogEntry :=
  { level := "i"
    trace := false
    text := "Starting backend_plugin [" ++ s.plugin_id ++ "] with command: "
      ++ pyListRepr (_validatePluginCommand s) }

/-- Log line of the `PermissionError` clause of `start()`
(`Logger.log("e", ...)`: error level, no trace). -/
def permissionDeniedLog (pid : String) : LogEntry :=
  { level := "e"
    trace := false
    text := "Couldn't start EnginePlugin: " ++ pid ++ " No permission to execute process." }

/-- Notification of the `PermissionError` clause of `start()`. -/
def permissionDeniedMessage (pid : String) : Notification :=
  { text := "Couldn't start EnginePlugin: " ++ pid ++ "\nNo permission to execute process."
    title := "EnginePlugin"
    messageType := MessageType.error }

/-- Log line of the `FileNotFoundError` clause of `start()`
(`Logger.logException`: error level with trace). -/
def fileNotFoundLog (pid : String) : LogEntry :=
  { level := "e"
    trace := true
    text := "Unable to find local EnginePlugin server executable for: " ++ pid }

/-- Notification of the `FileNotFoundError` clause of `start()`. -/
def fileNotFoundMessage (pid : String) : Notification :=
  { text := "Unable to find local EnginePlugin server executable for: " ++ pid
    title := "EnginePlugin"
    messageType := MessageType.error }

/-- Log line of the `BlockingIOError` clause of `start()`
(`Logger.logException`: error level with trace). -/
def blockedIOLog (pid : String) : LogEntry :=
  { level := "e"
    trace := true
    text := "Couldn't start EnginePlugin: " ++ pid ++ " Resource is temporarily unavailable" }

/-- Notification of the `BlockingIOError` clause of `start()`. -/
def blockedIOMessage (pid : String) : Notification :=
  { text := "Couldn't start EnginePlugin: " ++ pid ++ "\nResource is temporarily unavailable"
    title := "EnginePlugin"
    messageType := MessageType.error }

/-- Log line of the catch-all `OSError` clause of `start()`
(`Logger.logException`: error level with trace; the source omits the
colon after "EnginePlugin" in this one log line). -/
def osBlockedLog (pid : String) : LogEntry :=
  { level := "e"
    trace := true
    text := "Couldn't start EnginePlugin " ++ pid ++ " Operating system is blocking it (antivirus?)" }

/-- Notification of the catch-all `OSError` clause of `start()`. -/
def osBlockedMessage (pid : String) : Notification :=
  { text := "Couldn't start EnginePlugin: " ++ pid ++ "\nOperating system is blocking it (antivirus?)"
    title := "EnginePlugin"
    messageType := MessageType.error }

/-- Embedding of `BackendPlugin.start`.  `spawn` is the OS spawn
primitive, consulted on the validated command.  The `Except` layer
models Python exception propagation out of `start()`: a result
`Except.error e` would mean the exception `e` escaped to the caller.
The four `except` clauses of the source each map their error kind to a
plain `Except.ok` result with return value `false`, an error log, one
notification, and the state untouched (the assignments to
`self._process` and `self._is_running` sit after the `Popen` call, so a
raising spawn leaves both fields as they were).  On success the process
handle is stored, `is_running` is set, and `true` is returned. -/
def start (spawn : List String → SpawnRes) (s : State) : Except OSErrorKind StartResult :=
  match spawn (_validatePluginCommand s) with
  | SpawnRes.ok h =>
    Except.ok
      { ret := true
        state := { s with
          process := some { handle := h, returncode := none }
          is_running := true }
        logs := [startInfoLog s]
        messages := [] }
  | SpawnRes.raise OSErrorKind.permissionError =>
    Except.ok
      { ret := false
        state := s
        logs := [startInfoLog s, permissionDeniedLog s.plugin_id]
        messages := [permissionDeniedMessage s.plugin_id] }
  | SpawnRes.raise OSErrorKind.fileNotFoundError =>
    Except.ok
      { ret := false
        state := s
        logs := [startInfoLog s, fileNotFoundLog s.plugin_id]
        messages := [fileNotFoundMessage s.plugin_id] }
  | SpawnRes.raise OSErrorKind.blockingIOError =>
    Except.ok
      { ret := false
        state := s
        logs := [startInfoLog s, blockedIOLog s.plugin_id]
        messages := [blockedIOMessage s.plugin_id] }
  | SpawnRes.raise OSErrorKind.otherOSError =>
    Except.ok
      { ret := false
        state := s
        logs := [startInfoLog s, osBlockedLog s.plugin_id]
        messages := [osBlockedMessage s.plugin_id] }

/-- The result of a `start()` call.  The fallback branch is dead code:
`start` never returns `Except.error` (every classifiable spawn error is
handled by an `except` clause). -/
def startRun (spawn : List String → SpawnRes) (s : State) : StartResult :=
  match start spawn s with
  | Except.ok r => r
  | Except.error _ => { ret := false, state := s, logs := [], messages := [] }

/-- Outcome of one call to the OS terminate primitive on a live
process: the process exits with a return code, or the OS denies the
request (`PermissionError`), the one failure `stop()` handles. -/
inductive TermRes
| ok (rc : Int)
| permissionError
deriving DecidableEq

/-- One call from `stop()` into the OS process primitives.  The source
only ever requests a graceful `terminate` followed by `wait`; `kill` is
in the vocabulary so that its absence is expressible. -/
inductive OsCall
| terminate (h : Nat)
| kill (h : Nat)
| wait (h : Nat)
deriving DecidableEq

/-- Everything one call to `stop()` produces: the boolean return value,
the state after the call, the `Logger` lines, the notifications, and
the calls made into the OS process primitives, in order. -/
structure StopResult where
  ret : Bool
  state : State
  logs : List LogEntry
  messages : List Notification
  osCalls : List OsCall
deriving DecidableEq

/-- The `Logger.log("d", ...)` line of a successful `stop()`. -/
def killedLog (pid : String) (rc : Int) : LogEntry :=
  { level := "d"
    trace := false
    text := "EnginePlugin: " ++ pid ++ " was killed. Received return code " ++ toString rc }

/-- Log line of the `PermissionError` clause of `stop()`. -/
def killDeniedLog (pid : String) : LogEntry :=
  { level := "e"
    trace := false
    text := "Unable to kill running EnginePlugin: " ++ pid ++ " Access is denied." }

/-- Notification of the `PermissionError` clause of `stop()`. -/
def killDeniedMessage (pid : String) : Notification :=
  { text := "Unable to kill running EnginePlugin: " ++ pid ++ "\nAccess is denied."
    title := "EnginePlugin"
    messageType := MessageType.error }

/-- Embedding of `BackendPlugin.stop`.  With no process handle it is an
idempotent no-op: `is_running` is cleared and `True` returned.  With a
handle, `terminate()` then `wait()` are called.  If the handle was
already reaped (its return code is cached), `terminate()` polls, sends
no signal and cannot raise, and `wait()` returns the cached code.  On a
live handle the oracle `term` decides: the process exits with a code
(recorded in the handle by `wait()`, as `Popen.wait` caches it), or the
OS denies the terminate request and the `PermissionError` clause runs,
leaving the state exactly as it was.  Note the source never clears
`self._process` on a successful stop. -/
def stop (term : TermRes) (s : State) : StopResult :=
  match s.process with
  | none =>
    { ret := true
      state := { s with is_running := false }
      logs := []
      messages := []
      osCalls := [] }
  | some p =>
    match p.returncode with
    | some rc =>
      { ret := true
        state := { s with is_running := false }
        logs := [killedLog s.plugin_id rc]
        messages := []
        osCalls := [OsCall.terminate p.handle, OsCall.wait p.handle] }
    | none =>
      match term with
      | TermRes.ok rc =>
        { ret := true
          state := { s with
            is_running := false
            process := some { handle := p.handle, returncode := some rc } }
          logs := [killedLog s.plugin_id rc]
          messages := []
          osCalls := [OsCall.terminate p.handle, OsCall.wait p.handle] }
      | TermRes.permissionError =>
        { ret := false
          state := s
          logs := [killDeniedLog s.plugin_id]
          messages := [killDeniedMessage s.plugin_id]
          osCalls := [OsCall.terminate p.handle] }

/-- One operation of the supervisor, as the registry drives it: a
`setPort`, a `start` (with some spawn-primitive behaviour), a `stop`
(with some terminate-primitive behaviour), a registry configuration
step (the registry assigns `_plugin_command` and `_supported_slots`
externally; the class has no setter for them), or a getter (getters
leave the state unchanged). -/
inductive Step : State → State → Prop
| setPortStep (p : Int) (s : State) : Step s (setPort p s)
| startStep (spawn : List String → SpawnRes) (s : State) : Step s (startRun spawn s).state
| stopStep (term : TermRes) (s : State) : Step s (stop term s).state
| configStep (cmd : Option (List String)) (slots : List Int) (s : State) :
    Step s { s with plugin_command := cmd, supported_slots := slots }
| getterStep (s : State) : Step s s

/-- Reachability of a supervisor state by a sequence of operations. -/
def Reachable (init s : State) : Prop :=
  Relation.ReflTransGen Step init s

/-- Helper: `start` never produces `Except.error`; it always returns the
`startRun` result, because the four `except` clauses cover every error
the spawn primitive can raise. -/
theorem start_eq_ok (spawn : List String → SpawnRes) (s : State) :
    start spawn s = Except.ok (startRun spawn s) := by
  unfold startRun start
  rcases spawn (_validatePluginCommand s) with h | e
  · rfl
  · cases e <;> rfl

/-- Helper: `start` leaves the port field untouched in every branch. -/
theorem startRun_port (spawn : List String → SpawnRes) (s : State) :
    (startRun spawn s).state.port = s.port := by
  unfold startRun start
  rcases spawn (_validatePluginCommand s) with h | e
  · rfl
  · cases e <;> rfl

/-- Helper: `stop` leaves the port field untouched in every branch. -/
theorem stop_port (term : TermRes) (s : State) :
    (stop term s).state.port = s.port := by
  rcases s with ⟨pid, port, addr, cmd, proc, run, slots⟩
  rcases proc with _ | ⟨h, rc⟩
  · rfl
  · rcases rc with _ | rc0
    · cases term <;> rfl
    · rfl

/-- C2: the command validator is a pure function of the template,
address and port.  An absent template (and likewise an empty one, which
Python treats identically as falsy) yields the empty sequence; a
template already containing the token "--port" is returned unchanged;
otherwise the four discrete tokens "--address", the address, "--port",
the port rendered as a string are appended in that order; on template
["exe"], address "127.0.0.1", port 9000 the result is
["exe", "--address", "127.0.0.1", "--port", "9000"]. -/
theorem validatePluginCommand_spec (s t : State) :
    (s.plugin_command = none → _validatePluginCommand s = []) ∧
    (s.plugin_command = some [] → _validatePluginCommand s = []) ∧
    (∀ cmd, s.plugin_command = some cmd → "--port" ∈ cmd →
      _validatePluginCommand s = cmd) ∧
    (∀ cmd, s.plugin_command = some cmd → cmd ≠ [] → "--port" ∉ cmd →
      _validatePluginCommand s =
        cmd ++ ["--address", s.plugin_address, "--port", toString s.port]) ∧
    (s.plugin_command = t.plugin_command → s.plugin_address = t.plugin_address →
      s.port = t.port → _validatePluginCommand s = _validatePluginCommand t) ∧
    _validatePluginCommand
        { initState "plugin" with plugin_command := some ["exe"], port := 9000 } =
      ["exe", "--address", "127.0.0.1", "--port", "9000"] := by
  refine ⟨?_, ?_, ?_, ?_, ?_, ?_⟩
  · intro h
    simp [_validatePluginCommand, h]
  · intro h
    simp [_validatePluginCommand, h]
  · intro cmd h hm
    simp [_validatePluginCommand, h, hm]
  · intro cmd h hne hm
    simp [_validatePluginCommand, getAddress, h, hne, hm]
  · intro h1 h2 h3
    simp [_validatePluginCommand, getAddress, h1, h2, h3]
  · decide

/-- C3: `start()` never propagates an exception to the caller.  For
every behaviour of the OS spawn primitive and every supervisor state
(in particular the freshly constructed one, whose validated command is
the empty sequence), the call produces an `Except.ok` result — the
boolean plus side effects — never an `Except.error`. -/
theorem start_absorbs_failures :
    (∀ (spawn : List String → SpawnRes) (s : State),
      ∃ r, start spawn s = Except.ok r) ∧
    (∀ (spawn : List String → SpawnRes) (pid : String),
      _validatePluginCommand (initState pid) = [] ∧
      ∃ r, start spawn (initState pid) = Except.ok r) :=
  ⟨fun spawn s => ⟨startRun spawn s, start_eq_ok spawn s⟩,
   fun spawn pid => ⟨rfl, startRun spawn (initState pid), start_eq_ok spawn (initState pid)⟩⟩

/-- C10: a failed `start()` is atomic with respect to the supervisor
state.  Whichever of the four handled OS errors the spawn attempt
raises, the state after the call equals the state before it in every
field (process handle, running flag, port, address, command template,
slots), and the call returns false; in particular a failed spawn on an
already-running supervisor leaves `is_running` true and the stored
handle in place. -/
theorem start_failure_preserves_state (s : State) (e : OSErrorKind) :
    (startRun (fun _ => SpawnRes.raise e) s).state = s ∧
    (startRun (fun _ => SpawnRes.raise e) s).ret = false := by
  cases e <;> exact ⟨rfl, rfl⟩

/-- C8 (amended): `start`, `stop` and the getters never change the
stored port, so the port is constant during a run for every call
sequence that does not invoke `setPort` while running; `setPort` itself
overwrites the port unconditionally — also while `is_running` is true —
and leaves the running flag unchanged (immutability of the port during
a run is a protocol obligation of the registry, not enforced by the
supervisor). -/
theorem port_constant_under_start_stop (spawn : List String → SpawnRes)
    (term : TermRes) (s : State) (p : Int) :
    (startRun spawn s).state.port = s.port ∧
    (stop term s).state.port = s.port ∧
    (setPort p s).port = p ∧
    (setPort p s).is_running = s.is_running :=
  ⟨startRun_port spawn s, stop_port term s, rfl, rfl⟩

/-- C8 (counterexample to the claim as stated): a reachable run of the
supervisor in which `setPort` is invoked while `is_running` is true and
changes the stored port from 7 to 9 — so it is not the case that every
operation preserves the port while running. -/
theorem setPort_while_running_counterexample :
    Reachable (initState "plugin")
      (startRun (fun _ => SpawnRes.ok 1) (setPort 7 (initState "plugin"))).state ∧
    (startRun (fun _ => SpawnRes.ok 1) (setPort 7 (initState "plugin"))).state.is_running = true ∧
    (startRun (fun _ => SpawnRes.ok 1) (setPort 7 (initState "plugin"))).state.port = 7 ∧
    Step (startRun (fun _ => SpawnRes.ok 1) (setPort 7 (initState "plugin"))).state
      (setPort 9 (startRun (fun _ => SpawnRes.ok 1) (setPort 7 (initState "plugin"))).state) ∧
    (setPort 9 (startRun (fun _ => SpawnRes.ok 1) (setPort 7 (initState "plugin"))).state).is_running = true ∧
    (setPort 9 (startRun (fun _ => SpawnRes.ok 1) (setPort 7 (initState "plugin"))).state).port = 9 := by
  refine ⟨?_, rfl, rfl, Step.setPortStep 9 _, rfl, rfl⟩
  exact Relation.ReflTransGen.tail
    (Relation.ReflTransGen.single (Step.setPortStep 7 _)) (Step.startStep _ _)

/-- C1: when the spawn attempt in `start()` fails with any of the four
classified OS errors, `start()` returns false, does not set `is_running`
(it keeps its pre-call value), emits exactly one error notification
whose text names the plugin identifier, and writes an error-level log
line; for the permission-denied kind specifically, from the stopped
state `is_running` stays false, the single notification is the
permission-denied one, and no log line of the call carries an exception
trace. -/
theorem start_failure_reports (s : State) (e : OSErrorKind) :
    ∃ r, start (fun _ => SpawnRes.raise e) s = Except.ok r ∧
      r.ret = false ∧
      r.state.is_running = s.is_running ∧
      r.messages.length = 1 ∧
      (∀ m ∈ r.messages, m.messageType = MessageType.error ∧
        ∃ a b, m.text = a ++ s.plugin_id ++ b) ∧
      (∃ l ∈ r.logs, l.level = "e") ∧
      (e = OSErrorKind.permissionError →
        r.messages = [permissionDeniedMessage s.plugin_id] ∧
        (∀ l ∈ r.logs, l.trace = false) ∧
        (s.is_running = false → r.state.is_running = false)) := by
  cases e with
  | permissionError =>
    refine ⟨_, rfl, rfl, rfl, rfl, ?_, ?_, ?_⟩
    · intro m hm
      rw [List.mem_singleton] at hm
      subst hm
      exact ⟨rfl, "Couldn't start EnginePlugin: ",
        "\nNo permission to execute process.", rfl⟩
    · exact ⟨permissionDeniedLog s.plugin_id, by simp, rfl⟩
    · intro _
      refine ⟨rfl, ?_, fun h => h⟩
      intro l hl
      rw [List.mem_cons, List.mem_singleton] at hl
      rcases hl with h | h <;> subst h <;> rfl
  | fileNotFoundError =>
    refine ⟨_, rfl, rfl, rfl, rfl, ?_, ?_, fun h => OSErrorKind.noConfusion h⟩
    · intro m hm
      rw [List.mem_singleton] at hm
      subst hm
      exact ⟨rfl, "Unable to find local EnginePlugin server executable for: ", "",
        (String.append_empty _).symm⟩
    · exact ⟨fileNotFoundLog s.plugin_id, by simp, rfl⟩
  | blockingIOError =>
    refine ⟨_, rfl, rfl, rfl, rfl, ?_, ?_, fun h => OSErrorKind.noConfusion h⟩
    · intro m hm
      rw [List.mem_singleton] at hm
      subst hm
      exact ⟨rfl, "Couldn't start EnginePlugin: ",
        "\nResource is temporarily unavailable", rfl⟩
    · exact ⟨blockedIOLog s.plugin_id, by simp, rfl⟩
  | otherOSError =>
    refine ⟨_, rfl, rfl, rfl, rfl, ?_, ?_, fun h => OSErrorKind.noConfusion h⟩
    · intro m hm
      rw [List.mem_singleton] at hm
      subst hm
      exact ⟨rfl, "Couldn't start EnginePlugin: ",
        "\nOperating system is blocking it (antivirus?)", rfl⟩
    · exact ⟨osBlockedLog s.plugin_id, by simp, rfl⟩

/-- C1 witness: simulated permission denial on spawn from the freshly
constructed (stopped) supervisor, via `start_failure_reports`. -/
theorem start_failure_reports_witness :
    ∃ r, start (fun _ => SpawnRes.raise OSErrorKind.permissionError)
        (initState "plugin") = Except.ok r ∧
      r.ret = false ∧
      r.state.is_running = false ∧
      r.messages = [permissionDeniedMessage "plugin"] ∧
      ∀ l ∈ r.logs, l.trace = false := by
  obtain ⟨r, h1, h2, h3, h4, h5, h6, h7⟩ :=
    start_failure_reports (initState "plugin") OSErrorKind.permissionError
  obtain ⟨hm, ht, hr⟩ := h7 rfl
  exact ⟨r, h1, h2, hr rfl, hm, ht⟩

/-- C4: `stop()` on a held live process handle whose terminate and wait
both succeed requests a graceful terminate (never a kill) followed by
the blocking wait, records the captured exit code in the handle, clears
`is_running`, writes one diagnostic-level log line naming the
identifier and the exit code, and returns true. -/
theorem stop_graceful_success (s : State) (p : Proc) (rc : Int)
    (hp : s.process = some p) (hl : p.returncode = none) :
    (stop (TermRes.ok rc) s).ret = true ∧
    (stop (TermRes.ok rc) s).state.is_running = false ∧
    (stop (TermRes.ok rc) s).state.process =
      some { handle := p.handle, returncode := some rc } ∧
    (stop (TermRes.ok rc) s).osCalls = [OsCall.terminate p.handle, OsCall.wait p.handle] ∧
    (∀ h, OsCall.kill h ∉ (stop (TermRes.ok rc) s).osCalls) ∧
    (stop (TermRes.ok rc) s).logs =
      [{ level := "d", trace := false,
         text := "EnginePlugin: " ++ s.plugin_id
           ++ " was killed. Received return code " ++ toString rc }] := by
  obtain ⟨ph, prc⟩ := p
  have hrc : prc = none := hl
  subst hrc
  have hstop : stop (TermRes.ok rc) s =
      { ret := true,
        state :=
          { s with
              is_running := false,
              process := some { handle := ph, returncode := some rc } },
        logs := [killedLog s.plugin_id rc],
        messages := [],
        osCalls := [OsCall.terminate ph, OsCall.wait ph] } := by
    unfold stop
    rw [hp]
  rw [hstop]
  refine ⟨rfl, rfl, rfl, rfl, ?_, rfl⟩
  intro h hmem
  simp at hmem

/-- C4 witness: stopping a concrete running supervisor whose process
exits with code 0, via `stop_graceful_success`. -/
theorem stop_graceful_success_witness :
    (stop (TermRes.ok 0)
        { initState "plugin" with
          process := some { handle := 1, returncode := none },
          is_running := true }).ret = true ∧
    (stop (TermRes.ok 0)
        { initState "plugin" with
          process := some { handle := 1, returncode := none },
          is_running := true }).state.is_running = false :=
  ⟨(stop_graceful_success _ _ 0 rfl rfl).1, (stop_graceful_success _ _ 0 rfl rfl).2.1⟩

/-- C5: when the OS denies the terminate request, `stop()` returns
false, leaves the whole state (in particular `is_running`) exactly as
it was, emits exactly one error notification whose text names the
plugin, and writes an error-level log line. -/
theorem stop_permission_denied (s : State) (p : Proc)
    (hp : s.process = some p) (hl : p.returncode = none) :
    (stop TermRes.permissionError s).ret = false ∧
    (stop TermRes.permissionError s).state = s ∧
    (stop TermRes.permissionError s).messages = [killDeniedMessage s.plugin_id] ∧
    (∃ a b, (killDeniedMessage s.plugin_id).text = a ++ s.plugin_id ++ b ∧
      (killDeniedMessage s.plugin_id).messageType = MessageType.error) ∧
    (∃ l ∈ (stop TermRes.permissionError s).logs, l.level = "e") := by
  obtain ⟨ph, prc⟩ := p
  have hrc : prc = none := hl
  subst hrc
  have hstop : stop TermRes.permissionError s =
      { ret := false,
        state := s,
        logs := [killDeniedLog s.plugin_id],
        messages := [killDeniedMessage s.plugin_id],
        osCalls := [OsCall.terminate ph] } := by
    unfold stop
    rw [hp]
  rw [hstop]
  exact ⟨rfl, rfl, rfl,
    ⟨"Unable to kill running EnginePlugin: ", "\nAccess is denied.", rfl, rfl⟩,
    ⟨killDeniedLog s.plugin_id, by simp, rfl⟩⟩

/-- C5 witness: simulated permission denial on terminate against a
concrete running supervisor, via `stop_permission_denied`: the call
fails and `is_running` remains true. -/
theorem stop_permission_denied_witness :
    (stop TermRes.permissionError
        { initState "plugin" with
          process := some { handle := 1, returncode := none },
          is_running := true }).ret = false ∧
    (stop TermRes.permissionError
        { initState "plugin" with
          process := some { handle := 1, returncode := none },
          is_running := true }).state.is_running = true := by
  have h := stop_permission_denied
      { initState "plugin" with
        process := some { handle := 1, returncode := none }, is_running := true }
      { handle := 1, returncode := none } rfl rfl
  exact ⟨h.1, by rw [h.2.1]⟩

/-- C6: `stop()` is an idempotent success from the stopped state.  With
no process handle it clears `is_running`, returns true and shows no
notification, whatever the terminate primitive would do; and after a
successful stop of a live process, two further `stop()` calls both
return true and emit no notification (the handle is already reaped, so
`terminate()` sends no signal and cannot fail). -/
theorem stop_idempotent_success :
    (∀ (term : TermRes) (s : State), s.process = none →
      (stop term s).ret = true ∧
      (stop term s).state.is_running = false ∧
      (stop term s).messages = []) ∧
    (∀ (s : State) (p : Proc) (rc : Int) (t2 t3 : TermRes),
      s.process = some p → p.returncode = none →
      (stop (TermRes.ok rc) s).ret = true ∧
      (stop t2 (stop (TermRes.ok rc) s).state).ret = true ∧
      (stop t2 (stop (TermRes.ok rc) s).state).messages = [] ∧
      (stop t3 (stop t2 (stop (TermRes.ok rc) s).state).state).ret = true ∧
      (stop t3 (stop t2 (stop (TermRes.ok rc) s).state).state).messages = []) := by
  constructor
  · intro term s h
    unfold stop
    rw [h]
    exact ⟨rfl, rfl, rfl⟩
  · intro s p rc t2 t3 hp hl
    obtain ⟨ph, prc⟩ := p
    have hrc : prc = none := hl
    subst hrc
    have h1 : stop (TermRes.ok rc) s =
        { ret := true,
          state :=
            { s with
                is_running := false,
                process := some { handle := ph, returncode := some rc } },
          logs := [killedLog s.plugin_id rc],
          messages := [],
          osCalls := [OsCall.terminate ph, OsCall.wait ph] } := by
      unfold stop
      rw [hp]
    rw [h1]
    exact ⟨rfl, rfl, rfl, rfl, rfl⟩

/-- C6 witness: a never-started supervisor stops successfully, and two
further stops after a successful stop of a running one both succeed
with no notification, via `stop_idempotent_success`. -/
theorem stop_idempotent_success_witness :
    (stop TermRes.permissionError (initState "plugin")).ret = true ∧
    (stop TermRes.permissionError
        (stop TermRes.permissionError
          (stop (TermRes.ok 0)
            { initState "plugin" with
              process := some { handle := 1, returncode := none },
              is_running := true }).state).state).messages = [] := by
  have h1 := stop_idempotent_success.1 TermRes.permissionError (initState "plugin") rfl
  have h2 := stop_idempotent_success.2
      { initState "plugin" with
        process := some { handle := 1, returncode := none }, is_running := true }
      { handle := 1, returncode := none } 0 TermRes.permissionError TermRes.permissionError
      rfl rfl
  exact ⟨h1.1, h2.2.2.2.2⟩

/-- C2 witness: the validator applied to the concrete running example of
the claim, discharging the hypotheses of `validatePluginCommand_spec`
at a template that already contains "--port". -/
theorem validatePluginCommand_spec_witness :
    _validatePluginCommand
        { initState "plugin" with plugin_command := some ["exe", "--port", "1"] } =
      ["exe", "--port", "1"] :=
  (validatePluginCommand_spec
      { initState "plugin" with plugin_command := some ["exe", "--port", "1"] }
      (initState "plugin")).2.2.1 ["exe", "--port", "1"] rfl (by decide)

/-- Helper: every single operation preserves the invariant that a
running supervisor holds a process handle. -/
theorem step_preserves_handle {a b : State} (h : Step a b)
    (ih : a.is_running = true → a.process ≠ none) :
    b.is_running = true → b.process ≠ none := by
  cases h with
  | setPortStep p => exact ih
  | startStep spawn =>
    unfold startRun start
    rcases spawn (_validatePluginCommand a) with hh | e
    · intro _
      exact fun hc => Option.noConfusion hc
    · cases e <;> exact ih
  | stopStep term =>
    rcases a with ⟨pid, port, addr, cmd, proc, run, slots⟩
    rcases proc with _ | ⟨ph, prc⟩
    · intro hr
      exact absurd hr Bool.false_ne_true
    · rcases prc with _ | rc0
      · cases term with
        | ok rc =>
          intro hr
          exact absurd hr Bool.false_ne_true
        | permissionError => exact ih
      · intro hr
        exact absurd hr Bool.false_ne_true
  | configStep cmd slots => exact ih
  | getterStep => exact ih

/-- C7: in every state reachable from the freshly constructed
supervisor by any sequence of operations (`setPort`, `start`, `stop`,
registry configuration, getters), `is_running = true` implies a process
handle is present. -/
theorem running_implies_process_handle (pid : String) (s : State)
    (h : Reachable (initState pid) s) (hr : s.is_running = true) :
    s.process ≠ none := by
  revert hr
  induction h with
  | refl =>
    intro hr
    exact absurd hr (by simp [initState])
  | tail _ hstep ih => exact step_preserves_handle hstep ih

/-- C7 witness: the state after one successful `start()` from the
initial state is reachable, running, and holds a handle, via
`running_implies_process_handle`. -/
theorem running_implies_process_handle_witness :
    (startRun (fun _ => SpawnRes.ok 1) (initState "plugin")).state.process ≠ none :=
  running_implies_process_handle "plugin" _
    (Relation.ReflTransGen.single (Step.startStep _ _)) rfl

/-- C9 (counterexample to the claim as stated): a reachable state —
reached by a successful `start()` followed by a successful `stop()` —
in which `is_running` is false yet the supervisor still holds a process
handle: `stop()` never clears `self._process`. -/
theorem stop_keeps_handle_counterexample :
    Reachable (initState "plugin")
      (stop (TermRes.ok 0)
        (startRun (fun _ => SpawnRes.ok 1) (initState "plugin")).state).state ∧
    (stop (TermRes.ok 0)
      (startRun (fun _ => SpawnRes.ok 1) (initState "plugin")).state).ret = true ∧
    (stop (TermRes.ok 0)
      (startRun (fun _ => SpawnRes.ok 1) (initState "plugin")).state).state.is_running = false ∧
    (stop (TermRes.ok 0)
      (startRun (fun _ => SpawnRes.ok 1) (initState "plugin")).state).state.process ≠ none := by
  refine ⟨?_, rfl, rfl, fun hc => Option.noConfusion hc⟩
  exact Relation.ReflTransGen.tail
    (Relation.ReflTransGen.single (Step.startStep _ _)) (Step.stopStep _ _)

/-- C9 (amended): the process handle is absent in the freshly
constructed supervisor, but a successful `stop()` does not clear it:
immediately after a successful `stop()` of a held handle, `is_running`
is false while the (terminated) handle is still stored; absence of the
handle therefore does not follow from `is_running = false`. -/
theorem process_handle_after_stop :
    (∀ pid, (initState pid).process = none) ∧
    (∀ (s : State) (p : Proc) (rc : Int), s.process = some p →
      (stop (TermRes.ok rc) s).ret = true ∧
      (stop (TermRes.ok rc) s).state.is_running = false ∧
      (stop (TermRes.ok rc) s).state.process ≠ none) := by
  constructor
  · intro pid
    rfl
  · intro s p rc hp
    rcases s with ⟨pid, port, addr, cmd, proc, run, slots⟩
    obtain rfl : proc = some p := hp
    obtain ⟨ph, prc⟩ := p
    rcases prc with _ | rc0
    · exact ⟨rfl, rfl, fun hc => Option.noConfusion hc⟩
    · exact ⟨rfl, rfl, fun hc => Option.noConfusion hc⟩

/-- C9 (amended) witness: a concrete successful stop of a running
supervisor leaves the handle stored, via `process_handle_after_stop`. -/
theorem process_handle_after_stop_witness :
    (stop (TermRes.ok 0)
        { initState "plugin" with
          process := some { handle := 1, returncode := none },
          is_running := true }).state.process ≠ none :=
  (process_handle_after_stop.2
      { initState "plugin" with
        process := some { handle := 1, returncode := none }, is_running := true }
      { handle := 1, returncode := none } 0 rfl).2.2

end BackendPlugin
